import Mathlib

/-!
Shallow embedding of the montu address-parser pipeline.

The definitions below are translated from the TypeScript sources of the
repository: the TomTom provider (`tomtom-address.provider.ts`), the shared
HTTP service with its error classifier and axios-retry configuration
(`base-http.service.ts`), the query validator (`validation.utils.ts`,
`address-response.dto.ts`), the search facade
(`quickroute-address-parser.service.ts`), and the error-rendering layer
(`ErrorResponseBuilder`, `createErrorFromException`, the global exception
filter).  JavaScript strings are modelled as `String` or `List Char`,
numbers as `Nat`/`Int`/`Rat`, absent (`undefined`) values as `Option`, and
thrown exceptions as `Except` / explicit outcome types.
-/

namespace Montu

/-! ## Constants (`australia.constants.ts`) -/

def AUSTRALIA_COUNTRY_CODE : String := "AU"

def AUSTRALIA_COUNTRY_CODE_ISO3 : String := "AUS"

def AUSTRALIA_COUNTRY_NAME : String := "Australia"

def TOMTOM_PROVIDER_NAME : String := "tomtom"

/-- Modelled from the spec: the `QUERY_VALIDATION` constants live in
`config/validation.constants.ts`, which is not among the source files; the
spec fixes the hard bounds at 3–200 characters and the advisory "optimal"
sub-range at 10–100 characters (the repository's tests quote the same
numbers). -/
def QUERY_MIN_LENGTH : Nat := 3

/-- Modelled from the spec: upper hard bound of the query length. -/
def QUERY_MAX_LENGTH : Nat := 200

/-- Modelled from the spec: lower bound of the advisory "optimal" range. -/
def QUERY_OPTIMAL_MIN_LENGTH : Nat := 10

/-- Modelled from the spec: upper bound of the advisory "optimal" range. -/
def QUERY_OPTIMAL_MAX_LENGTH : Nat := 100

/-! ## JavaScript helpers

`jsOrOpt o d` models the JavaScript expression `o || d` on an optional
string: `undefined` and the empty string are falsy.  `jsOrStr` is the same
for a present string.  `jsTrim` models `String.prototype.trim` on a
character list; `lowerString` models `toLowerCase` (ASCII range, as
Lean's `Char.toLower`). -/

def jsOrStr (s : String) (d : String) : String :=
  if s = "" then d else s

def jsOrOpt (o : Option String) (d : String) : String :=
  match o with
  | some s => jsOrStr s d
  | none => d

abbrev Str := List Char

def jsTrimLeft (s : Str) : Str := s.dropWhile Char.isWhitespace

def jsTrimRight (s : Str) : Str :=
  (s.reverse.dropWhile Char.isWhitespace).reverse

def jsTrim (s : Str) : Str := jsTrimRight (jsTrimLeft s)

def lowerStr (s : Str) : Str := s.map Char.toLower

def lowerString (s : String) : String := String.mk (s.data.map Char.toLower)

/-! ## TomTom data model (`tomtom.types.ts`) -/

structure TomTomAddress where
  streetNumber : Option String := none
  streetName : Option String := none
  municipalitySubdivision : Option String := none
  municipality : Option String := none
  countrySubdivision : Option String := none
  countrySubdivisionCode : Option String := none
  postalCode : Option String := none
  countryCode : Option String := none
  country : Option String := none
  countryCodeISO3 : Option String := none
  freeformAddress : Option String := none
deriving DecidableEq

structure TomTomPosition where
  lat : Rat
  lon : Rat
deriving DecidableEq

/-- One raw provider result.  The TypeScript declaration marks `id` and
`score` as present, but the mapper guards both with `||`, so they are
modelled as optional to cover provider payloads that omit them. -/
structure TomTomSearchResult where
  id : Option String := none
  score : Option Rat := none
  address : TomTomAddress
  position : TomTomPosition
deriving DecidableEq

/-- In-band TomTom error body (`detailedError` envelope). -/
structure TomTomDetailedError where
  code : String
  message : String
deriving DecidableEq

/-- The provider response as the provider code reads it: an in-band error
envelope (`detailedError` / `errorText`) or a `results` array, which the
code also guards against being absent. -/
structure TomTomResponseData where
  detailedError : Option TomTomDetailedError := none
  errorText : Option String := none
  results : Option (List TomTomSearchResult) := none
deriving DecidableEq

/-! ## Domain model (`address.interface.ts`) -/

structure ICoordinates where
  lat : Rat
  lon : Rat
deriving DecidableEq

structure IAddress where
  fullAddress : String
  streetNumber : String
  streetName : String
  suburb : String
  municipality : String
  state : String
  postcode : String
  country : String
  coordinates : ICoordinates
  raw : TomTomSearchResult
deriving DecidableEq

structure ISuggestion where
  id : String
  text : String
  score : Rat
  address : IAddress
deriving DecidableEq

/-! ## Error taxonomy (`exceptions/*.ts`) -/

/-- The closed taxonomy of domain/provider exceptions, with the payload
fields each class carries. `providerHttp` is the base `ProviderException`
as raised for unrecognized HTTP statuses (arguments: provider, category,
details, message, statusCode). -/
inductive TaxonomyExc where
  | invalidInput (message : String)
  | noResults (query provider : String)
  | countryMismatch (expectedCountry actualCountry address : String)
  | providerHttp (provider category details message : String) (statusCode : Nat)
  | providerAuth (provider details : String)
  | providerRateLimit (provider details : String)
  | providerService (provider details : String)
  | providerNetwork (provider details : String)
  | providerUnknown (provider details : String)
deriving DecidableEq

/-- `HttpException.getStatus()` for each taxonomy member, from the status
each exception class passes to its superclass constructor. -/
def TaxonomyExc.getStatus : TaxonomyExc → Nat
  | .invalidInput _ => 400
  | .noResults _ _ => 404
  | .countryMismatch _ _ _ => 422
  | .providerHttp _ _ _ _ statusCode => statusCode
  | .providerAuth _ _ => 401
  | .providerRateLimit _ _ => 429
  | .providerService _ _ => 502
  | .providerNetwork _ _ => 503
  | .providerUnknown _ _ => 500

/-! ## TomTom provider (`tomtom-address.provider.ts`) -/

def isAustralianAddress (address : TomTomAddress) : Bool :=
  address.countryCode == some AUSTRALIA_COUNTRY_CODE ||
  address.countryCodeISO3 == some AUSTRALIA_COUNTRY_CODE_ISO3 ||
  address.country == some AUSTRALIA_COUNTRY_NAME ||
  (match address.country with
   | some c => lowerString c == "australia"
   | none => false)

def buildAddressText (address : TomTomAddress) : String :=
  let components := [address.streetNumber, address.streetName,
    address.municipalitySubdivision, address.municipality,
    address.countrySubdivisionCode, address.postalCode]
  String.intercalate ", "
    (components.filterMap (fun o =>
      match o with
      | some s => if s = "" then none else some s
      | none => none))

def mapTomTomResultToIAddress (result : TomTomSearchResult) : IAddress :=
  let address := result.address
  { fullAddress := jsOrOpt address.freeformAddress (buildAddressText address)
    streetNumber := address.streetNumber.getD ""
    streetName := address.streetName.getD ""
    suburb := address.municipalitySubdivision.getD ""
    municipality := address.municipality.getD ""
    state := jsOrOpt address.countrySubdivisionCode
      (jsOrOpt address.countrySubdivision "")
    postcode := address.postalCode.getD ""
    country := address.country.getD AUSTRALIA_COUNTRY_NAME
    coordinates := { lat := result.position.lat, lon := result.position.lon }
    raw := result }

/-- `mapToSuggestion`; `gen` stands for the freshly generated
`tomtom-<random>` identifier the code would substitute for a missing id. -/
def mapToSuggestion (gen : String) (result : TomTomSearchResult) : ISuggestion :=
  { id := jsOrOpt result.id gen
    text := jsOrOpt result.address.freeformAddress (buildAddressText result.address)
    score :=
      match result.score with
      | some s => if s = 0 then 1 else s
      | none => 1
    address := mapTomTomResultToIAddress result }

/-- `results.map(r => r.address.country || "Unknown")`. -/
def countryOrUnknown (r : TomTomSearchResult) : String :=
  jsOrOpt r.address.country "Unknown"

/-- `.filter((country, index, arr) => arr.indexOf(country) === index)`:
keep each value's first occurrence. -/
def dedupFirst (seen : List String) : List String → List String
  | [] => []
  | a :: t =>
    if a ∈ seen then dedupFirst seen t else a :: dedupFirst (a :: seen) t

/-- The `nonAustralianCountries` string assembled for the
`CountryMismatchException`. -/
def nonAustralianCountries (results : List TomTomSearchResult) : String :=
  String.intercalate ", " (dedupFirst [] (results.map countryOrUnknown))

/-- Index-aware map used to model mapping each surviving result to a
suggestion with its own generated fallback identifier. -/
def mapIdxFrom (f : Nat → TomTomSearchResult → ISuggestion) :
    Nat → List TomTomSearchResult → List ISuggestion
  | _, [] => []
  | i, a :: t => f i a :: mapIdxFrom f (i + 1) t

/-- `TomTomAddressProvider.getSuggestions` from the point the provider
response `data` is available (the HTTP transport itself is modelled
separately); `gen i` is the generated identifier for the i-th surviving
result. -/
def getSuggestions (gen : Nat → String) (query : String)
    (data : TomTomResponseData) : Except TaxonomyExc (List ISuggestion) :=
  let trimmedQuery := query.trim
  if data.detailedError.isSome || data.errorText.isSome then
    let errorCode :=
      jsOrOpt (data.detailedError.map TomTomDetailedError.code) "Unknown"
    let errorMessage :=
      jsOrOpt (data.detailedError.map TomTomDetailedError.message)
        (jsOrOpt data.errorText "Unknown TomTom error")
    .error (.providerService TOMTOM_PROVIDER_NAME
      ("TomTom API Error [" ++ errorCode ++ "]: " ++ errorMessage))
  else
    match data.results with
    | none => .error (.noResults trimmedQuery TOMTOM_PROVIDER_NAME)
    | some results =>
      if results.isEmpty then
        .error (.noResults trimmedQuery TOMTOM_PROVIDER_NAME)
      else
        let australianResults :=
          results.filter (fun r => isAustralianAddress r.address)
        if australianResults.isEmpty then
          .error (.countryMismatch AUSTRALIA_COUNTRY_NAME
            (nonAustralianCountries results) trimmedQuery)
        else
          .ok (mapIdxFrom (fun i r => mapToSuggestion (gen i) r) 0
            australianResults)

/-! ## Failure classifier (`base-http.service.ts`) -/

/-- Information destructured from an axios response object:
`const { status } = response || {}`. -/
structure RespInfo where
  status : Option Nat := none
deriving DecidableEq

/-- Shape of a raw (not yet classified) transport error as the classifier
probes it: `name` (the `"TimeoutError"` test), presence of a `response`
key and the response value with its status, presence of a `request` key,
and the `Error#message` when the value is an `Error` instance. -/
structure ErrShape where
  name : Option String := none
  hasResponseKey : Bool := false
  response : Option RespInfo := none
  hasRequestKey : Bool := false
  message : Option String := none
deriving DecidableEq

/-- An error reaching the classifier: either one that already belongs to
the taxonomy (an `instanceof` one of the exception classes) or a raw
transport error shape. -/
inductive RawError where
  | classified (e : TaxonomyExc)
  | shape (s : ErrShape)
deriving DecidableEq

/-- `defaultErrorMapper.shouldRethrowException`: one `instanceof` test per
taxonomy class. -/
def shouldRethrowException : RawError → Bool
  | .classified e =>
    match e with
    | .invalidInput _ => true
    | .noResults _ _ => true
    | .countryMismatch _ _ _ => true
    | .providerHttp _ _ _ _ _ => true
    | .providerAuth _ _ => true
    | .providerRateLimit _ _ => true
    | .providerService _ _ => true
    | .providerNetwork _ _ => true
    | .providerUnknown _ _ => true
  | .shape _ => false

structure ProviderErrorContext where
  provider : String
  query : String
  limit : Int
deriving DecidableEq

def statusText : Option Nat → String
  | some n => toString n
  | none => "undefined"

/-- JavaScript `status && status >= 500` (0 and `undefined` are falsy). -/
def isTruthyGE500 : Option Nat → Bool
  | some n => !(n == 0) && decide (500 ≤ n)
  | none => false

/-- JavaScript `status || 500`. -/
def statusOr500 : Option Nat → Nat
  | some n => if n = 0 then 500 else n
  | none => 500

/-- `defaultErrorMapper.mapHttpError`. -/
def mapHttpError (status : Option Nat) (provider : String) : TaxonomyExc :=
  if status = some 400 then
    .invalidInput "Invalid query parameters"
  else if status = some 401 ∨ status = some 403 then
    .providerAuth provider "Invalid API key or insufficient permissions"
  else if status = some 429 then
    .providerRateLimit provider "Too many requests"
  else if isTruthyGE500 status then
    .providerService provider
      ("Service unavailable (HTTP " ++ statusText status ++ ")")
  else
    .providerHttp provider "HTTPError" ("HTTP " ++ statusText status)
      ("Request failed with status " ++ statusText status)
      (statusOr500 status)

def respStatus (s : ErrShape) : Option Nat :=
  match s.response with
  | some r => r.status
  | none => none

/-- The body of `mapError` past the rethrow guard: the timeout-name test,
then the `"response" in error` branch, the `"request" in error` branch,
and finally `mapUnknownError`. -/
def mapShapeError (timeoutMs : Nat) (ctx : ProviderErrorContext)
    (s : ErrShape) : TaxonomyExc :=
  if s.name = some "TimeoutError" then
    .providerService ctx.provider
      ("Request timeout after " ++ toString timeoutMs ++ "ms")
  else if s.hasResponseKey then
    mapHttpError (respStatus s) ctx.provider
  else if s.hasRequestKey then
    .providerNetwork ctx.provider "Failed to connect to API"
  else
    .providerUnknown ctx.provider (s.message.getD "Unknown error occurred")

/-- Outcome of `mapError`: the original error rethrown, or a freshly
mapped taxonomy exception returned to the caller. -/
inductive MapOutcome where
  | rethrown (e : RawError)
  | mapped (e : TaxonomyExc)
deriving DecidableEq

/-- `BaseHttpService.mapError`.  The second `classified` line is
unreachable because `shouldRethrowException` holds for every taxonomy
member; it only completes the match. -/
def mapError (timeoutMs : Nat) (ctx : ProviderErrorContext)
    (e : RawError) : MapOutcome :=
  if shouldRethrowException e then
    .rethrown e
  else
    match e with
    | .classified _ =>
      .mapped (.providerUnknown ctx.provider "Unknown error occurred")
    | .shape s => .mapped (mapShapeError timeoutMs ctx s)

/-! ## Request executor with axios-retry (`setupAxiosRetry`, `makeRequest`) -/

structure BaseHttpOptions where
  baseURL : String
  timeout : Nat := 30000
  retries : Nat := 3
  retryDelay : Nat := 1000
  provider : String
deriving DecidableEq

/-- The `retryCondition` closure from `setupAxiosRetry`; `netIdem` stands
for the library predicate `axiosRetry.isNetworkOrIdempotentRequestError`,
kept abstract. -/
def retryCondition (netIdem : ErrShape → Bool) (e : ErrShape) : Bool :=
  match e.response with
  | none => true
  | some r =>
    netIdem e ||
      (match r.status with
       | some n => [429, 500, 502, 503, 504].contains n
       | none => false)

/-- Modelled from the spec: the axios-retry dependency is not part of the
source tree.  Its contract is that `retries` bounds the number of retries
made after the first attempt, each gated by `retryCondition`; `attempt`
numbers the attempts from 0 and the returned `Nat` is the total number of
attempts issued. -/
def runRetry (cond : ErrShape → Bool) (transport : Nat → Except ErrShape α) :
    Nat → Nat → Nat × Except ErrShape α
  | 0, attempt => (attempt + 1, transport attempt)
  | r + 1, attempt =>
    match transport attempt with
    | .ok d => (attempt + 1, .ok d)
    | .error s =>
      if cond s then runRetry cond transport r (attempt + 1)
      else (attempt + 1, .error s)

/-- What `makeRequest` ultimately throws: either the rethrown original
error or the newly mapped exception. -/
def surfacedError : MapOutcome → RawError
  | .rethrown e => e
  | .mapped e => .classified e

/-- `BaseHttpService.makeRequest` over an abstract per-attempt transport:
run the axios-retry loop, then classify a final failure through
`mapError`.  Also returns the number of provider attempts issued. -/
def makeRequestRun (opts : BaseHttpOptions) (netIdem : ErrShape → Bool)
    (ctx : ProviderErrorContext) (transport : Nat → Except ErrShape α) :
    Except RawError α × Nat :=
  match runRetry (retryCondition netIdem) transport opts.retries 0 with
  | (n, .ok d) => (.ok d, n)
  | (n, .error s) =>
    (.error (surfacedError (mapError opts.timeout ctx (.shape s))), n)

/-- The axios error shape produced by a plain HTTP 500 response. -/
def http500Shape : ErrShape :=
  { name := some "AxiosError"
    hasResponseKey := true
    response := some { status := some 500 }
    hasRequestKey := true
    message := some "Request failed with status code 500" }

/-! ## Query validator (`validation.utils.ts`, `address-response.dto.ts`) -/

structure FieldError where
  field : String
  message : String
deriving DecidableEq

structure SearchInput where
  query : Str
  limit : Option Int := none
  country : Option Str := none
deriving DecidableEq

structure AddressSearchDto where
  query : Str
  limit : Int
  country : Option Str := none
deriving DecidableEq

inductive ValidationOutcome where
  | valid (data : AddressSearchDto) (warnings : List String)
  | invalid (errors : List FieldError)
deriving DecidableEq

/-- `isValidAustralianCountry`: lower-case, trim, and compare against the
accepted country name and codes. -/
def isValidAustralianCountry (value : Str) : Bool :=
  let normalizedValue := jsTrim (lowerStr value)
  decide (normalizedValue = "australia".toList) ||
  decide (normalizedValue = "au".toList) ||
  decide (normalizedValue = "aus".toList)

def queryFieldErrors (tq : Str) : List FieldError :=
  (if tq.length < QUERY_MIN_LENGTH then
    [⟨"query", "Query must be at least " ++ toString QUERY_MIN_LENGTH ++
      " characters long"⟩]
   else []) ++
  (if QUERY_MAX_LENGTH < tq.length then
    [⟨"query", "Query must not exceed " ++ toString QUERY_MAX_LENGTH ++
      " characters"⟩]
   else [])

def limitFieldErrors (limit : Option Int) : List FieldError :=
  match limit with
  | none => []
  | some l =>
    (if l < 1 then [⟨"limit", "Limit must be at least 1"⟩] else []) ++
    (if 100 < l then [⟨"limit", "Limit must not exceed 100"⟩] else [])

def countryFieldErrors (country : Option Str) : List FieldError :=
  match country with
  | none => []
  | some c =>
    if isValidAustralianCountry (jsTrim c) then []
    else
      [⟨"country", "Only Australian addresses are supported. " ++
        "Accepted values: Australia, AU, AUS"⟩]

/-- `generateValidationWarnings` over the validated (trimmed) query. -/
def generateValidationWarnings (query : Str) : List String :=
  (if query.length < QUERY_OPTIMAL_MIN_LENGTH then
    ["Query is shorter than optimal length (" ++
      toString QUERY_OPTIMAL_MIN_LENGTH ++
      " characters). Results may be too broad."]
   else []) ++
  (if QUERY_OPTIMAL_MAX_LENGTH < query.length then
    ["Query is longer than optimal length (" ++
      toString QUERY_OPTIMAL_MAX_LENGTH ++
      " characters). Consider using a more specific search."]
   else [])

/-- `validateAddressInput`: run the zod schema (trim + bounds checks on
every field), and on success return the validated data together with the
advisory warnings. -/
def validateAddressInput (input : SearchInput) : ValidationOutcome :=
  let tq := jsTrim input.query
  let errors := queryFieldErrors tq ++ limitFieldErrors input.limit ++
    countryFieldErrors input.country
  if errors = [] then
    .valid
      { query := tq
        limit := input.limit.getD 10
        country := input.country.map jsTrim }
      (generateValidationWarnings tq)
  else
    .invalid errors

/-! ## Search facade (`quickroute-address-parser.service.ts`) -/

structure SearchMetadata where
  query : Str
  limit : Int
  resultCount : Nat
  warnings : List String
deriving DecidableEq

structure SearchOk where
  results : List ISuggestion
  metadata : SearchMetadata
deriving DecidableEq

/-- What `searchAddresses` can throw: the `BadRequestException` built by
`createValidationException` (carrying the per-field messages; its
timestamp field is wall-clock time and not modelled), or whatever the
provider throws. -/
inductive SearchError where
  | badRequest (messages : List String)
  | provider (e : TaxonomyExc)
deriving DecidableEq

/-- `QuickrouteAddressParserService.searchAddresses` over an abstract
address provider.  The second component counts how often
`addressProvider.getSuggestions` was invoked. -/
def searchAddresses
    (provider : Str → Int → Except TaxonomyExc (List ISuggestion))
    (query : Str) (limit : Int) : Except SearchError SearchOk × Nat :=
  match validateAddressInput { query := query, limit := some limit } with
  | .invalid errors =>
    (.error (.badRequest (errors.map (fun e => e.field ++ ": " ++ e.message))), 0)
  | .valid data warnings =>
    match provider data.query data.limit with
    | .error e => (.error (.provider e), 1)
    | .ok suggestions =>
      (.ok { results := suggestions
             metadata := { query := data.query
                           limit := data.limit
                           resultCount := suggestions.length
                           warnings := warnings } }, 1)

/-! ## Error rendering (`ErrorResponseBuilder`, `createErrorFromException`) -/

/-- `ErrorMapping` (`types`): the `shouldLog` and `logLevel` members are
optional. -/
structure ErrorMapping where
  status : Nat
  message : String
  detailsType : String
  detailsFields : List (String × String) := []
  shouldLogFlag : Option Bool := none
  logLevel : Option String := none
deriving DecidableEq

/-- `ErrorResponseBuilder.shouldLog()`: `this.mapping.shouldLog ?? false`. -/
def ErrorResponseBuilder.shouldLog (mapping : ErrorMapping) : Bool :=
  mapping.shouldLogFlag.getD false

/-- The `message` of each taxonomy exception, from the message each class
passes to its superclass constructor. -/
def TaxonomyExc.excMessage : TaxonomyExc → String
  | .invalidInput m => "Invalid input: " ++ m
  | .noResults q p =>
    "No address suggestions found for query: \"" ++ q ++ "\" (" ++ p ++ ")"
  | .countryMismatch expected actual address =>
    "Address validation failed: Expected " ++ expected ++
      " address, received " ++ actual ++ " for \"" ++ address ++ "\""
  | .providerHttp _ _ _ m _ => m
  | .providerAuth p _ => p ++ " authentication failed"
  | .providerRateLimit p _ => p ++ " rate limit exceeded"
  | .providerService p _ => p ++ " service unavailable"
  | .providerNetwork p _ => "Failed to connect to " ++ p
  | .providerUnknown p _ => p ++ " unexpected error"

/-- `createErrorFromException` (mappers): every taxonomy exception is an
`HttpException`; the specialized branches tag the details with a
discriminating `type`, everything else gets `HTTP_ERROR`.  No branch sets
`shouldLog` or `logLevel`. -/
def createErrorFromException (e : TaxonomyExc) : ErrorMapping :=
  match e with
  | .countryMismatch expected actual address =>
    { status := 422
      message := TaxonomyExc.excMessage (.countryMismatch expected actual address)
      detailsType := "COUNTRY_VALIDATION_ERROR"
      detailsFields := [("expectedCountry", expected), ("actualCountry", actual),
        ("query", address)] }
  | .noResults q p =>
    { status := 404
      message := TaxonomyExc.excMessage (.noResults q p)
      detailsType := "NO_RESULTS_FOUND" }
  | .invalidInput m =>
    { status := 400
      message := TaxonomyExc.excMessage (.invalidInput m)
      detailsType := "INVALID_INPUT_ERROR" }
  | other =>
    { status := other.getStatus
      message := other.excMessage
      detailsType := "HTTP_ERROR" }

/-- `ErrorLoggingService.shouldLogError`: 4xx only at debug/verbose, 5xx
always (for errors carrying `getStatus`). -/
def shouldLogErrorSvc (level : String) (statusCode : Nat) : Bool :=
  if 400 ≤ statusCode ∧ statusCode < 500 then
    level == "debug" || level == "verbose"
  else
    decide (500 ≤ statusCode)

/-- `EnhancedGlobalExceptionFilter.logError`: a log record is emitted only
when the response builder's `shouldLog()` gate is open. -/
def filterEmitsLog (mapping : ErrorMapping) : Bool :=
  ErrorResponseBuilder.shouldLog mapping

/-! ## Theorems -/

theorem mem_mapIdxFrom {f : Nat → TomTomSearchResult → ISuggestion}
    {l : List TomTomSearchResult} :
    ∀ {i : Nat} {s : ISuggestion},
      s ∈ mapIdxFrom f i l → ∃ j a, a ∈ l ∧ s = f j a := by
  induction l with
  | nil =>
    intro i s h
    simp [mapIdxFrom] at h
  | cons a t ih =>
    intro i s h
    rcases (List.mem_cons).mp h with h | h
    · exact ⟨i, a, List.mem_cons_self a t, h⟩
    · obtain ⟨j, b, hb, hs⟩ := ih h
      exact ⟨j, b, List.mem_cons_of_mem a hb, hs⟩

theorem mapError_shape_eq (timeoutMs : Nat) (ctx : ProviderErrorContext)
    (s : ErrShape) :
    mapError timeoutMs ctx (.shape s) = .mapped (mapShapeError timeoutMs ctx s) := by
  simp [mapError, shouldRethrowException]

theorem mapHttpError_auth (st : Nat) (provider : String)
    (h : st = 401 ∨ st = 403) :
    mapHttpError (some st) provider =
      .providerAuth provider "Invalid API key or insufficient permissions" := by
  unfold mapHttpError
  rw [if_neg (by rcases h with h | h <;> simp [h]), if_pos (by
    rcases h with h | h <;> simp [h])]

theorem mapHttpError_ge500 (st : Nat) (provider : String) (h : 500 ≤ st) :
    mapHttpError (some st) provider =
      .providerService provider
        ("Service unavailable (HTTP " ++ toString st ++ ")") := by
  unfold mapHttpError
  rw [if_neg (by simp; omega), if_neg (by push_neg; constructor <;> simp <;> omega),
    if_neg (by simp; omega), if_pos (by simp [isTruthyGE500]; omega)]
  rfl

theorem mapHttpError_other (st : Nat) (provider : String)
    (hnot : st ∉ ([400, 401, 403, 429] : List Nat)) (hlt : st < 500)
    (hnz : st ≠ 0) :
    mapHttpError (some st) provider =
      .providerHttp provider "HTTPError" ("HTTP " ++ toString st)
        ("Request failed with status " ++ toString st) st := by
  simp only [List.mem_cons, List.not_mem_nil, or_false, not_or] at hnot
  obtain ⟨h1, h2, h3, h4⟩ := hnot
  unfold mapHttpError
  rw [if_neg (by simp [h1]), if_neg (by push_neg; constructor <;> simp [h2, h3]),
    if_neg (by simp [h4]), if_neg (by simp [isTruthyGE500]; omega)]
  simp [statusText, statusOr500, hnz]

/-- C3: classification totality and the priority table — for every
transport failure shape, `mapError` returns exactly one mapped taxonomy
error (first conjunct: never unclassified, never a rethrow), and the
mapping follows the priority table: a `TimeoutError` name maps to the
service-unavailable `ProviderServiceError`; then, with a response
present, status 400 to `InvalidInputException`, 401/403 to
`ProviderAuthenticationError`, 429 to `ProviderRateLimitError`, ≥ 500 to
`ProviderServiceError`, and any other present status to the plain
`ProviderException` carrying that HTTP status; a request without a
response maps to `ProviderNetworkError`, and anything else to
`ProviderUnknownError`. -/
theorem mapError_classification_table (timeoutMs : Nat)
    (ctx : ProviderErrorContext) (s : ErrShape) :
    (∃ e, mapError timeoutMs ctx (.shape s) = .mapped e) ∧
    (s.name = some "TimeoutError" →
      mapError timeoutMs ctx (.shape s) = .mapped
        (.providerService ctx.provider
          ("Request timeout after " ++ toString timeoutMs ++ "ms"))) ∧
    (s.name ≠ some "TimeoutError" → s.hasResponseKey = true →
      (respStatus s = some 400 →
        mapError timeoutMs ctx (.shape s) = .mapped
          (.invalidInput "Invalid query parameters")) ∧
      (respStatus s = some 401 ∨ respStatus s = some 403 →
        mapError timeoutMs ctx (.shape s) = .mapped
          (.providerAuth ctx.provider
            "Invalid API key or insufficient permissions")) ∧
      (respStatus s = some 429 →
        mapError timeoutMs ctx (.shape s) = .mapped
          (.providerRateLimit ctx.provider "Too many requests")) ∧
      (∀ st, respStatus s = some st → 500 ≤ st →
        mapError timeoutMs ctx (.shape s) = .mapped
          (.providerService ctx.provider
            ("Service unavailable (HTTP " ++ toString st ++ ")"))) ∧
      (∀ st, respStatus s = some st → st ∉ ([400, 401, 403, 429] : List Nat) →
        st < 500 → st ≠ 0 →
        mapError timeoutMs ctx (.shape s) = .mapped
          (.providerHttp ctx.provider "HTTPError" ("HTTP " ++ toString st)
            ("Request failed with status " ++ toString st) st))) ∧
    (s.name ≠ some "TimeoutError" → s.hasResponseKey = false →
      s.hasRequestKey = true →
      mapError timeoutMs ctx (.shape s) = .mapped
        (.providerNetwork ctx.provider "Failed to connect to API")) ∧
    (s.name ≠ some "TimeoutError" → s.hasResponseKey = false →
      s.hasRequestKey = false →
      mapError timeoutMs ctx (.shape s) = .mapped
        (.providerUnknown ctx.provider
          (s.message.getD "Unknown error occurred"))) := by
  refine ⟨⟨mapShapeError timeoutMs ctx s, mapError_shape_eq timeoutMs ctx s⟩,
    ?_, ?_, ?_, ?_⟩
  · intro hname
    rw [mapError_shape_eq]
    simp [mapShapeError, hname]
  · intro hname hresp
    have hbase : mapError timeoutMs ctx (.shape s) =
        .mapped (mapHttpError (respStatus s) ctx.provider) := by
      rw [mapError_shape_eq]
      simp [mapShapeError, hname, hresp]
    refine ⟨?_, ?_, ?_, ?_, ?_⟩
    · intro hst
      rw [hbase, hst]
      simp [mapHttpError]
    · intro hst
      rcases hst with hst | hst
      · rw [hbase, hst, mapHttpError_auth 401 ctx.provider (Or.inl rfl)]
      · rw [hbase, hst, mapHttpError_auth 403 ctx.provider (Or.inr rfl)]
    · intro hst
      rw [hbase, hst]
      simp [mapHttpError]
    · intro st hst h500
      rw [hbase, hst, mapHttpError_ge500 st ctx.provider h500]
    · intro st hst hnot hlt hnz
      rw [hbase, hst, mapHttpError_other st ctx.provider hnot hlt hnz]
  · intro hname hresp hreq
    rw [mapError_shape_eq]
    simp [mapShapeError, hname, hresp, hreq]
  · intro hname hresp hreq
    rw [mapError_shape_eq]
    simp [mapShapeError, hname, hresp, hreq]

/-- C3 witness: concrete failure shapes exercise the timeout row, the
400 / 403 / 429 / 503 / 418 status rows, the no-response network row and
the catch-all row of the table. -/
theorem mapError_classification_table_witness :
    mapError 30000 ⟨"tomtom", "q", 10⟩
      (.shape { name := some "TimeoutError" }) =
      .mapped (.providerService "tomtom" "Request timeout after 30000ms") ∧
    mapError 30000 ⟨"tomtom", "q", 10⟩
      (.shape { hasResponseKey := true, response := some { status := some 400 } }) =
      .mapped (.invalidInput "Invalid query parameters") ∧
    mapError 30000 ⟨"tomtom", "q", 10⟩
      (.shape { hasResponseKey := true, response := some { status := some 403 } }) =
      .mapped (.providerAuth "tomtom"
        "Invalid API key or insufficient permissions") ∧
    mapError 30000 ⟨"tomtom", "q", 10⟩
      (.shape { hasResponseKey := true, response := some { status := some 429 } }) =
      .mapped (.providerRateLimit "tomtom" "Too many requests") ∧
    mapError 30000 ⟨"tomtom", "q", 10⟩
      (.shape { hasResponseKey := true, response := some { status := some 503 } }) =
      .mapped (.providerService "tomtom" "Service unavailable (HTTP 503)") ∧
    mapError 30000 ⟨"tomtom", "q", 10⟩
      (.shape { hasResponseKey := true, response := some { status := some 418 } }) =
      .mapped (.providerHttp "tomtom" "HTTPError" "HTTP 418"
        "Request failed with status 418" 418) ∧
    mapError 30000 ⟨"tomtom", "q", 10⟩
      (.shape { hasRequestKey := true, message := some "socket hang up" }) =
      .mapped (.providerNetwork "tomtom" "Failed to connect to API") ∧
    mapError 30000 ⟨"tomtom", "q", 10⟩
      (.shape { message := some "boom" }) =
      .mapped (.providerUnknown "tomtom" "boom") := by
  refine ⟨(mapError_classification_table 30000 ⟨"tomtom", "q", 10⟩
    { name := some "TimeoutError" }).2.1 rfl, ?_, ?_, ?_, ?_, ?_, ?_, ?_⟩
  · exact ((mapError_classification_table 30000 ⟨"tomtom", "q", 10⟩
      { hasResponseKey := true, response := some { status := some 400 } }).2.2.1
      (by decide) rfl).1 rfl
  · exact ((mapError_classification_table 30000 ⟨"tomtom", "q", 10⟩
      { hasResponseKey := true, response := some { status := some 403 } }).2.2.1
      (by decide) rfl).2.1 (Or.inr rfl)
  · exact ((mapError_classification_table 30000 ⟨"tomtom", "q", 10⟩
      { hasResponseKey := true, response := some { status := some 429 } }).2.2.1
      (by decide) rfl).2.2.1 rfl
  · exact ((mapError_classification_table 30000 ⟨"tomtom", "q", 10⟩
      { hasResponseKey := true, response := some { status := some 503 } }).2.2.1
      (by decide) rfl).2.2.2.1 503 rfl (by omega)
  · exact ((mapError_classification_table 30000 ⟨"tomtom", "q", 10⟩
      { hasResponseKey := true, response := some { status := some 418 } }).2.2.1
      (by decide) rfl).2.2.2.2 418 rfl (by decide) (by omega) (by omega)
  · exact (mapError_classification_table 30000 ⟨"tomtom", "q", 10⟩
      { hasRequestKey := true, message := some "socket hang up" }).2.2.2.1
      (by decide) rfl rfl
  · exact (mapError_classification_table 30000 ⟨"tomtom", "q", 10⟩
      { message := some "boom" }).2.2.2.2 (by decide) rfl rfl

theorem runRetry_const_error {α : Type} (cond : ErrShape → Bool)
    (s : ErrShape) (hc : cond s = true) :
    ∀ r i : Nat,
      runRetry cond (fun _ => (.error s : Except ErrShape α)) r i =
        (i + r + 1, .error s) := by
  intro r
  induction r with
  | zero =>
    intro i
    simp [runRetry]
  | succ n ih =>
    intro i
    simp only [runRetry, hc, if_pos]
    rw [ih (i + 1)]
    congr 1
    omega

/-- C2 (amended): with a configured retry count of N and a transport that
answers every attempt with HTTP 500, `makeRequest` under the axios-retry
policy issues exactly N + 1 provider attempts — the initial attempt plus
N retries — and then surfaces the service-unavailable
`ProviderServiceError`. -/
theorem makeRequest_always500_attempts {α : Type} (N : Nat)
    (netIdem : ErrShape → Bool) (baseURL provider q : String) (lim : Int) :
    makeRequestRun (α := α)
      { baseURL := baseURL, retries := N, provider := provider }
      netIdem { provider := provider, query := q, limit := lim }
      (fun _ => .error http500Shape) =
      (.error (.classified (.providerService provider
        "Service unavailable (HTTP 500)")), N + 1) := by
  have hc : retryCondition netIdem http500Shape = true := by
    simp [retryCondition, http500Shape]
  have hmap : mapError 30000 { provider := provider, query := q, limit := lim }
      (.shape http500Shape) =
      .mapped (.providerService provider "Service unavailable (HTTP 500)") := by
    rw [mapError_shape_eq]
    have hs : mapShapeError 30000
        { provider := provider, query := q, limit := lim } http500Shape =
        mapHttpError (some 500) provider := by
      simp [mapShapeError, http500Shape, respStatus]
    rw [hs, mapHttpError_ge500 500 provider (by omega)]
    rfl
  unfold makeRequestRun
  rw [runRetry_const_error (retryCondition netIdem) http500Shape hc N 0]
  simp only [hmap, surfacedError]
  congr 1
  omega

/-- C2 counterexample: with a configured retry count of 1 and a transport
always answering HTTP 500, `makeRequest` issues 2 provider attempts, not
1: the configured count bounds the retries made after the initial
attempt, not the total number of attempts. -/
theorem makeRequest_retry_bound_cex :
    (makeRequestRun (α := Unit)
      { baseURL := "https://api.tomtom.com", retries := 1,
        provider := "tomtom" }
      (fun _ => false) { provider := "tomtom", query := "q", limit := 10 }
      (fun _ => .error http500Shape)).2 = 2 ∧ (2 : Nat) ≠ 1 := by
  exact ⟨rfl, by decide⟩

theorem length_dropWhile_le (p : Char → Bool) (l : List Char) :
    (l.dropWhile p).length ≤ l.length := by
  induction l with
  | nil => simp
  | cons a t ih =>
    by_cases h : p a <;> simp [List.dropWhile_cons, h] <;> omega

theorem dropWhile_idem (p : Char → Bool) (l : List Char) :
    (l.dropWhile p).dropWhile p = l.dropWhile p := by
  induction l with
  | nil => rfl
  | cons a t ih =>
    by_cases h : p a <;> simp [List.dropWhile_cons, h, ih]

theorem dropWhile_suffix (p : Char → Bool) (l : List Char) :
    l.dropWhile p <:+ l := by
  induction l with
  | nil => simp
  | cons a t ih =>
    by_cases h : p a
    · rw [List.dropWhile_cons, if_pos h]
      exact ih.trans (List.suffix_cons a t)
    · rw [List.dropWhile_cons, if_neg h]

theorem dropWhile_prefix_self {p : Char → Bool} {l₁ l₂ : List Char}
    (h : l₂ <+: l₁) (hl : l₁.dropWhile p = l₁) :
    l₂.dropWhile p = l₂ := by
  cases l₂ with
  | nil => rfl
  | cons a t =>
    obtain ⟨r, hr⟩ := h
    have ha : p a = false := by
      by_contra hpa
      have hpa' : p a = true := by simpa using hpa
      rw [← hr, List.cons_append, List.dropWhile_cons, if_pos hpa'] at hl
      have hlen := congrArg List.length hl
      have hle := length_dropWhile_le p (t ++ r)
      simp [List.length_append] at hlen hle
      omega
    rw [List.dropWhile_cons, if_neg (by simp [ha])]

theorem jsTrimRight_prefixOf (l : Str) : jsTrimRight l <+: l := by
  have h := List.reverse_prefix.mpr (dropWhile_suffix Char.isWhitespace l.reverse)
  simpa [jsTrimRight] using h

theorem jsTrimRight_idem (l : Str) : jsTrimRight (jsTrimRight l) = jsTrimRight l := by
  simp [jsTrimRight, List.reverse_reverse, dropWhile_idem]

theorem jsTrimLeft_jsTrim (s : Str) : jsTrimLeft (jsTrim s) = jsTrim s := by
  have h := dropWhile_prefix_self (p := Char.isWhitespace)
    (jsTrimRight_prefixOf (jsTrimLeft s)) (dropWhile_idem Char.isWhitespace s)
  simpa [jsTrim, jsTrimLeft] using h

theorem jsTrim_idem (s : Str) : jsTrim (jsTrim s) = jsTrim s := by
  calc jsTrim (jsTrim s) = jsTrimRight (jsTrimLeft (jsTrim s)) := rfl
    _ = jsTrimRight (jsTrim s) := by rw [jsTrimLeft_jsTrim]
    _ = jsTrimRight (jsTrimRight (jsTrimLeft s)) := rfl
    _ = jsTrimRight (jsTrimLeft s) := jsTrimRight_idem _
    _ = jsTrim s := rfl

/-- C8: validation idempotence — whenever `validateAddressInput` accepts
a raw input, re-running it on the validated output (the trimmed query,
the resolved limit, the normalized country) succeeds again and produces
the identical validated data and warnings. -/
theorem validateAddressInput_idempotent (input : SearchInput)
    (data : AddressSearchDto) (warnings : List String)
    (h : validateAddressInput input = .valid data warnings) :
    validateAddressInput
      { query := data.query, limit := some data.limit,
        country := data.country } = .valid data warnings := by
  simp only [validateAddressInput] at h
  by_cases hE : queryFieldErrors (jsTrim input.query) ++
      limitFieldErrors input.limit ++ countryFieldErrors input.country = []
  case neg =>
    rw [if_neg hE] at h
    exact absurd h (by simp)
  case pos =>
    rw [if_pos hE] at h
    injection h with hd hw
    have h1 := List.append_eq_nil.mp hE
    have h2 := List.append_eq_nil.mp h1.1
    have hq := h2.1
    have hl := h2.2
    have hc := h1.2
    have hdq : data.query = jsTrim input.query := by rw [← hd]
    have hdl : data.limit = input.limit.getD 10 := by rw [← hd]
    have hdc : data.country = input.country.map jsTrim := by rw [← hd]
    have hq2 : jsTrim data.query = data.query := by rw [hdq, jsTrim_idem]
    have hqerr : queryFieldErrors data.query = [] := by rw [hdq, hq]
    have hlerr : limitFieldErrors (some data.limit) = [] := by
      rw [hdl]
      cases hI : input.limit with
      | none => rfl
      | some l =>
        rw [hI] at hl
        simpa using hl
    have hcerr : countryFieldErrors data.country = [] := by
      rw [hdc]
      cases hI : input.country with
      | none => rfl
      | some c =>
        rw [hI] at hc
        simp only [Option.map_some']
        simp only [countryFieldErrors, jsTrim_idem]
        simpa [countryFieldErrors] using hc
    simp only [validateAddressInput]
    rw [hq2, if_pos (by rw [hqerr, hlerr, hcerr]; rfl)]
    have hcfix : data.country.map jsTrim = data.country := by
      rw [hdc]
      cases input.country <;> simp [jsTrim_idem]
    rw [hcfix]
    have hwfix : generateValidationWarnings data.query = warnings := by
      rw [hdq, hw]
    rw [hwfix]
    simp

/-- C8 witness: a valid raw input with surrounding whitespace in both the
query and the country validates to trimmed data, and validating that
data again yields it unchanged. -/
theorem validateAddressInput_idempotent_witness :
    validateAddressInput
      { query := "123 George St".toList, limit := some 5,
        country := some "au".toList } =
      .valid { query := "123 George St".toList, limit := 5,
               country := some "au".toList } [] :=
  validateAddressInput_idempotent
    { query := " 123 George St ".toList, limit := some 5,
      country := some " au ".toList }
    { query := "123 George St".toList, limit := 5,
      country := some "au".toList } [] (by decide)

/-- C5: validation failures never reach the network — for every input
whose trimmed query is shorter than 3 or longer than 200 characters, or
whose limit lies outside [1, 100], `searchAddresses` raises the
validation `BadRequestException` and invokes the address provider's
`getSuggestions` zero times; the outcome does not depend on the provider
at all. -/
theorem searchAddresses_invalid_no_network
    (provider : Str → Int → Except TaxonomyExc (List ISuggestion))
    (query : Str) (limit : Int)
    (h : (jsTrim query).length < QUERY_MIN_LENGTH ∨
      QUERY_MAX_LENGTH < (jsTrim query).length ∨ limit < 1 ∨ 100 < limit) :
    (searchAddresses provider query limit).2 = 0 ∧
    (∃ messages, (searchAddresses provider query limit).1 =
      .error (.badRequest messages)) ∧
    ∀ provider2, searchAddresses provider2 query limit =
      searchAddresses provider query limit := by
  have hne : queryFieldErrors (jsTrim query) ++ limitFieldErrors (some limit) ++
      countryFieldErrors none ≠ [] := by
    intro hE
    have h1 := List.append_eq_nil.mp hE
    have h2 := List.append_eq_nil.mp h1.1
    have hqb : QUERY_MIN_LENGTH ≤ (jsTrim query).length ∧
        (jsTrim query).length ≤ QUERY_MAX_LENGTH := by
      simpa [queryFieldErrors] using h2.1
    have hlb : 1 ≤ limit ∧ limit ≤ 100 := by
      simpa [limitFieldErrors] using h2.2
    rcases h with hh | hh | hh | hh <;> omega
  have hval : validateAddressInput { query := query, limit := some limit } =
      .invalid (queryFieldErrors (jsTrim query) ++
        limitFieldErrors (some limit) ++ countryFieldErrors none) := by
    simp only [validateAddressInput]
    rw [if_neg hne]
  have key : ∀ p, searchAddresses p query limit =
      (.error (.badRequest ((queryFieldErrors (jsTrim query) ++
        limitFieldErrors (some limit) ++ countryFieldErrors none).map
          (fun e => e.field ++ ": " ++ e.message))), 0) := by
    intro p
    simp only [searchAddresses, hval]
  exact ⟨by rw [key], ⟨_, by rw [key]⟩, fun provider2 => by rw [key, key]⟩

/-- C5 witness: the two-character query `"ab"` (below the minimum length)
makes `searchAddresses` raise the validation error with zero provider
invocations. -/
theorem searchAddresses_invalid_no_network_witness :
    (searchAddresses (fun _ _ => .ok []) "ab".toList 10).2 = 0 ∧
    (searchAddresses (fun _ _ => .ok []) "ab".toList 10).1 =
      .error (.badRequest
        ["query: Query must be at least 3 characters long"]) := by
  refine ⟨(searchAddresses_invalid_no_network (fun _ _ => .ok [])
    "ab".toList 10 (Or.inl (by decide))).1, ?_⟩
  rfl

/-- C1: target-country invariant of the result validator — whenever the
provider response carries a non-empty `results` array (and no in-band
error envelope), every suggestion `getSuggestions` returns originates
from a result whose address passes `isAustralianAddress`; and when no
element of `results` passes the predicate, `getSuggestions` raises
`CountryMismatchException` carrying the expected country, the distinct
set of observed countries, and the query text, returning nothing. -/
theorem getSuggestions_country_invariant (gen : Nat → String)
    (query : String) (data : TomTomResponseData)
    (rs : List TomTomSearchResult)
    (herr1 : data.detailedError = none) (herr2 : data.errorText = none)
    (hres : data.results = some rs) (hne : rs ≠ []) :
    (∀ out, getSuggestions gen query data = .ok out →
      ∀ s ∈ out, isAustralianAddress s.address.raw.address = true) ∧
    ((∀ r ∈ rs, isAustralianAddress r.address = false) →
      getSuggestions gen query data = .error
        (.countryMismatch AUSTRALIA_COUNTRY_NAME (nonAustralianCountries rs)
          query.trim)) := by
  have hbase : getSuggestions gen query data =
      (if (rs.filter (fun r => isAustralianAddress r.address)).isEmpty then
        .error (.countryMismatch AUSTRALIA_COUNTRY_NAME
          (nonAustralianCountries rs) query.trim)
      else
        .ok (mapIdxFrom (fun i r => mapToSuggestion (gen i) r) 0
          (rs.filter (fun r => isAustralianAddress r.address)))) := by
    unfold getSuggestions
    rw [herr1, herr2, hres]
    simp [List.isEmpty_iff, hne]
  constructor
  · intro out hout s hs
    rw [hbase] at hout
    by_cases hA : (rs.filter (fun r => isAustralianAddress r.address)).isEmpty
    · rw [if_pos hA] at hout
      exact absurd hout (by simp)
    · rw [if_neg hA] at hout
      obtain ⟨rfl⟩ := Except.ok.inj hout.symm
      obtain ⟨j, a, ha, rfl⟩ := mem_mapIdxFrom hs
      have := (List.mem_filter.mp ha).2
      simpa [mapToSuggestion, mapTomTomResultToIAddress] using this
  · intro hall
    rw [hbase, if_pos]
    rw [List.isEmpty_iff, List.filter_eq_nil_iff]
    intro a ha
    simp [hall a ha]

/-- C1 witness: a response containing a single United-States result
triggers the `CountryMismatchException` with the expected country, the
observed country and the query text. -/
theorem getSuggestions_country_invariant_witness :
    getSuggestions (fun _ => "tomtom-x") "123 Main Street"
      { results :=
          some [({ id := some "US1", score := some 1,
                   address := { country := some "United States",
                                countryCode := some "US" },
                   position := { lat := 40, lon := -74 } } :
                  TomTomSearchResult)] } =
      .error (.countryMismatch "Australia" "United States"
        ("123 Main Street".trim)) := by
  exact (getSuggestions_country_invariant (fun _ => "tomtom-x")
    "123 Main Street"
    { results :=
        some [({ id := some "US1", score := some 1,
                 address := { country := some "United States",
                              countryCode := some "US" },
                 position := { lat := 40, lon := -74 } } :
                TomTomSearchResult)] }
    [({ id := some "US1", score := some 1,
        address := { country := some "United States",
                     countryCode := some "US" },
        position := { lat := 40, lon := -74 } } : TomTomSearchResult)]
    rfl rfl rfl (by decide)).2 (by decide)

/-- C4: classifier pass-through — for every error that already belongs to
the taxonomy (`InvalidInputException`, `NoResultsException`,
`CountryMismatchException`, or any `ProviderException` variant),
`mapError` re-raises that very error unchanged, never wrapping it into a
new classification. -/
theorem mapError_passthrough_identity (timeoutMs : Nat)
    (ctx : ProviderErrorContext) (e : TaxonomyExc) :
    mapError timeoutMs ctx (.classified e) = .rethrown (.classified e) := by
  cases e <;> simp [mapError, shouldRethrowException]

/-- C6 counterexample: a provider result whose `countryCode` is the
lowercase `"au"` (and which carries no other country information) does
NOT pass `isAustralianAddress`, contradicting the claim that alpha-2
codes are matched case-insensitively and lowercase `"au"` is retained. -/
theorem isAustralianAddress_lowercase_code_cex :
    isAustralianAddress { countryCode := some "au" } = false ∧
    ([({ id := some "1", score := some 1,
         address := { countryCode := some "au" },
         position := { lat := 0, lon := 0 } } : TomTomSearchResult)].filter
      (fun r => isAustralianAddress r.address)) = [] := by
  constructor
  · decide
  · decide

/-- C6 (amended): `isAustralianAddress` passes a result exactly when its
alpha-2 code equals `"AU"` (case-sensitively), its alpha-3 code equals
`"AUS"` (case-sensitively), or its country name equals Australia
case-insensitively; only the country-name comparison ignores case. -/
theorem isAustralianAddress_characterization (a : TomTomAddress) :
    isAustralianAddress a = true ↔
      (a.countryCode = some AUSTRALIA_COUNTRY_CODE ∨
        a.countryCodeISO3 = some AUSTRALIA_COUNTRY_CODE_ISO3 ∨
        ∃ c, a.country = some c ∧ lowerString c = "australia") := by
  cases hc : a.country with
  | none =>
    simp [isAustralianAddress, hc]
  | some c =>
    simp only [isAustralianAddress, hc, Bool.or_eq_true, beq_iff_eq,
      Option.some.injEq]
    constructor
    · rintro (((h | h) | h) | h)
      · exact Or.inl h
      · exact Or.inr (Or.inl h)
      · refine Or.inr (Or.inr ⟨c, rfl, ?_⟩)
        rw [h]
        decide
      · exact Or.inr (Or.inr ⟨c, rfl, h⟩)
    · rintro (h | h | ⟨c', hc', hl⟩)
      · exact Or.inl (Or.inl (Or.inl h))
      · exact Or.inl (Or.inl (Or.inr h))
      · cases hc'
        exact Or.inr hl

/-- C6 witness: an address whose only country information is the
uppercase name `"AUSTRALIA"` passes the filter through the
case-insensitive country-name comparison. -/
theorem isAustralianAddress_characterization_witness :
    isAustralianAddress { country := some "AUSTRALIA" } = true :=
  (isAustralianAddress_characterization { country := some "AUSTRALIA" }).mpr
    (Or.inr (Or.inr ⟨"AUSTRALIA", rfl, by decide⟩))

/-- C7 counterexample: a provider result that supplies the score `0` is
mapped to a suggestion whose `score` is `1.0`, not the supplied `0`,
contradicting the claim that a supplied score of 0 is kept. -/
theorem mapToSuggestion_zero_score_cex :
    (mapToSuggestion "tomtom-generated"
      { id := some "AU1", score := some 0,
        address := { country := some "Australia" },
        position := { lat := 0, lon := 0 } }).score = 1 ∧
    (1 : Rat) ≠ 0 := by
  constructor
  · rfl
  · decide

/-- C7 (amended): the mapped suggestion's `score` equals the provider's
score only when a non-zero score is supplied; an absent score — and
likewise a supplied score of 0 — falls back to 1.0.  The suggestion's
`id` is the provider's id when it is a non-empty string; an absent or
empty id is replaced by the generated identifier. -/
theorem mapToSuggestion_defaults (gen : String) (r : TomTomSearchResult) :
    (∀ s, r.score = some s → s ≠ 0 → (mapToSuggestion gen r).score = s) ∧
    ((r.score = none ∨ r.score = some 0) → (mapToSuggestion gen r).score = 1) ∧
    (∀ i, r.id = some i → i ≠ "" → (mapToSuggestion gen r).id = i) ∧
    ((r.id = none ∨ r.id = some "") → (mapToSuggestion gen r).id = gen) := by
  refine ⟨?_, ?_, ?_, ?_⟩
  · intro s hs hne
    simp [mapToSuggestion, hs, hne]
  · rintro (hs | hs) <;> simp [mapToSuggestion, hs]
  · intro i hi hne
    simp [mapToSuggestion, jsOrOpt, jsOrStr, hi, hne]
  · rintro (hi | hi) <;> simp [mapToSuggestion, jsOrOpt, jsOrStr, hi]

/-- C7 witness: on a result supplying score `2` and id `"AU1"`, both
the score and the id are copied verbatim. -/
theorem mapToSuggestion_defaults_witness :
    (mapToSuggestion "tomtom-generated"
      { id := some "AU1", score := some 2,
        address := { country := some "Australia" },
        position := { lat := 0, lon := 0 } }).score = 2 ∧
    (mapToSuggestion "tomtom-generated"
      { id := some "AU1", score := some 2,
        address := { country := some "Australia" },
        position := { lat := 0, lon := 0 } }).id = "AU1" := by
  have h := mapToSuggestion_defaults "tomtom-generated"
    { id := some "AU1", score := some 2,
      address := { country := some "Australia" },
      position := { lat := 0, lon := 0 } }
  exact ⟨h.1 2 rfl (by norm_num), h.2.2.1 "AU1" rfl (by decide)⟩

/-- C9 (code bug): `createErrorFromException` never populates the
optional `shouldLog` member of the `ErrorMapping`, and
`ErrorResponseBuilder.shouldLog()` defaults it to `false` — so the
rendered log decision is `false` for every classified error, including
the 5xx provider-failure, authentication and rate-limit kinds the spec
says are always logged.  The intended per-status policy does exist in
`ErrorLoggingService.shouldLogError` (last conjunct), but the filter
only reaches it when the builder's gate is open. -/
theorem shouldLog_false_for_classified_errors :
    (∀ e : TaxonomyExc,
      ErrorResponseBuilder.shouldLog (createErrorFromException e) = false) ∧
    ErrorResponseBuilder.shouldLog (createErrorFromException
      (.providerService "tomtom" "Service unavailable (HTTP 502)")) = false ∧
    ErrorResponseBuilder.shouldLog (createErrorFromException
      (.providerAuth "tomtom" "Invalid API key or insufficient permissions"))
      = false ∧
    ErrorResponseBuilder.shouldLog (createErrorFromException
      (.providerRateLimit "tomtom" "Too many requests")) = false ∧
    shouldLogErrorSvc "info" 502 = true := by
  refine ⟨fun e => ?_, rfl, rfl, rfl, by decide⟩
  cases e <;> rfl

/-- C10: a provider result that passes the country filter while its raw
address omits the `country` field is mapped to an `IAddress` whose
`country` is the literal target country name, `"Australia"`. -/
theorem mapTomTomResultToIAddress_country_default (r : TomTomSearchResult)
    (hfilter : isAustralianAddress r.address = true)
    (hcountry : r.address.country = none) :
    (mapTomTomResultToIAddress r).country = AUSTRALIA_COUNTRY_NAME := by
  simp [mapTomTomResultToIAddress, hcountry]

/-- C10 witness: a result matching via its alpha-2 code alone, with no
`country` field, is mapped to the country name `"Australia"`. -/
theorem mapTomTomResultToIAddress_country_default_witness :
    (mapTomTomResultToIAddress
      { id := some "1", score := some 1,
        address := { countryCode := some "AU" },
        position := { lat := 0, lon := 0 } }).country = "Australia" :=
  mapTomTomResultToIAddress_country_default _ (by decide) rfl

end Montu
